import Mathlib

/-!
Verification of the command-execution core and tool-surface claims of the
aseprite-mcp-docker repository (Python sources under `src/aseprite_mcp/`).

Shallow embedding conventions:
* Python strings are Lean `String`s (lists of `Char`); the ASCII-relevant
  behaviour of `str.upper`, `str.lower`, `str.strip`, `str.lstrip("#")` is
  modelled per character on code points (Unicode special casing such as
  ligature expansion is outside the model).
* The filesystem is a `FS` value: the list of paths that exist.  `pathlib`
  path strings are kept verbatim (no `Path(...)` normalisation of duplicate
  slashes), and `Path.name` / `Path.stem` / `Path.suffix` are modelled with
  POSIX component parsing as in `pathlib` (empty and single-dot components
  collapse).
* Effects of `subprocess.run` are an oracle `SubprocessOutcome` chosen by the
  environment: the process exits with a code and captured streams, times out,
  the executable is missing, or an unexpected exception occurs.  `check=True`
  turns a nonzero exit into `CalledProcessError`, which `run_command` catches.
* `tempfile.NamedTemporaryFile` yields a fresh path `ExecEnv.tmpPath`
  (freshness — the tempfile module's guarantee — appears as a hypothesis
  where needed); `os.remove` may raise `OSError` (oracle `removeRaises`,
  e.g. a permission failure), in which case the file persists.
* A raised `AsepriteCommandError` is the `Except.error` branch.
-/

/-- Code point of the character, used to model Python `ord`-level tests. -/
def charCode (c : Char) : Nat := c.toNat

/-- Helper: `Char.ofNat` round-trips on valid (small) code points. -/
theorem charCode_ofNat (n : Nat) (h : n < 55296) : charCode (Char.ofNat n) = n := by
  simp [charCode, Char.ofNat, Nat.isValidChar, Char.ofNatAux, Char.toNat, h, UInt32.toNat]

/-- Python `str.upper` on one character (ASCII range, as in the source's color strings). -/
def pyUpperChar (c : Char) : Char :=
  if 97 ≤ charCode c ∧ charCode c ≤ 122 then Char.ofNat (charCode c - 32) else c

/-- Python `str.lower` on one character (ASCII range). -/
def pyLowerChar (c : Char) : Char :=
  if 65 ≤ charCode c ∧ charCode c ≤ 90 then Char.ofNat (charCode c + 32) else c

/-- Code-point description of `pyUpperChar`. -/
theorem charCode_pyUpperChar (c : Char) :
    charCode (pyUpperChar c) =
      if 97 ≤ charCode c ∧ charCode c ≤ 122 then charCode c - 32 else charCode c := by
  unfold pyUpperChar
  split
  · next h => exact charCode_ofNat _ (by omega)
  · rfl

/-- Code-point description of `pyLowerChar`. -/
theorem charCode_pyLowerChar (c : Char) :
    charCode (pyLowerChar c) =
      if 65 ≤ charCode c ∧ charCode c ≤ 90 then charCode c + 32 else charCode c := by
  unfold pyLowerChar
  split
  · next h => exact charCode_ofNat _ (by omega)
  · rfl

/-- Python `str.upper` (per-character model). -/
def pyUpper (s : String) : String := ⟨s.data.map pyUpperChar⟩

/-- Python `str.lower` (per-character model). -/
def pyLower (s : String) : String := ⟨s.data.map pyLowerChar⟩

/-- Python whitespace for `str.strip()` (the six ASCII whitespace characters). -/
def pyIsSpace (c : Char) : Bool :=
  decide (charCode c = 32 ∨ charCode c = 9 ∨ charCode c = 10 ∨ charCode c = 13 ∨
    charCode c = 11 ∨ charCode c = 12)

/-- Python `str.strip()` (both ends). -/
def pyStrip (s : String) : String :=
  ⟨((s.data.dropWhile (fun c => pyIsSpace c)).reverse.dropWhile (fun c => pyIsSpace c)).reverse⟩

/-- Uppercase hexadecimal digit, the character class `[0-9A-F]` of the source regex. -/
def isHexUpper (c : Char) : Bool :=
  decide ((48 ≤ charCode c ∧ charCode c ≤ 57) ∨ (65 ≤ charCode c ∧ charCode c ≤ 70))

/-- Case-insensitive hexadecimal digit, the character class `[0-9A-Fa-f]`. -/
def isHexDigitCI (c : Char) : Bool :=
  decide ((48 ≤ charCode c ∧ charCode c ≤ 57) ∨ (65 ≤ charCode c ∧ charCode c ≤ 70) ∨
    (97 ≤ charCode c ∧ charCode c ≤ 102))

/-- Python `re.match(r"^[0-9A-F]\x7b6\x7d$", s)` viewed as a Boolean: six uppercase hex
digits, where `$` also matches just before one final newline. -/
def reMatchHex6 (cs : List Char) : Bool :=
  (decide (cs.length = 6) && cs.all isHexUpper) ||
  (decide (cs.length = 7) && (cs.take 6).all isHexUpper &&
    decide (cs.getLast?.map charCode = some 10))

/-- Embedding of `drawing.validate_hex_color`: strip all leading `#` markers
(`str.lstrip("#")`), uppercase, then match the six-hex-digit regex. -/
def validate_hex_color (color : String) : Bool × String :=
  let c := pyUpper ⟨color.data.dropWhile (fun ch => ch = '#')⟩
  if reMatchHex6 c.data then (true, c) else (false, c)

/-- Value of one hexadecimal digit as `int(·, 16)` sees it, `none` when the
character is not a hex digit (a `ValueError`). -/
def hexDigitVal (c : Char) : Option Nat :=
  if 48 ≤ charCode c ∧ charCode c ≤ 57 then some (charCode c - 48)
  else if 65 ≤ charCode c ∧ charCode c ≤ 70 then some (charCode c - 55)
  else if 97 ≤ charCode c ∧ charCode c ≤ 102 then some (charCode c - 87)
  else none

/-- Accumulator loop for `pyIntHex`. -/
def pyIntHexGo (acc : Nat) : List Char → Option Nat
  | [] => some acc
  | c :: rest =>
    match hexDigitVal c with
    | some v => pyIntHexGo (16 * acc + v) rest
    | none => none

/-- Python `int(s, 16)` on plain hex-digit strings; `none` models the
`ValueError` on an empty or non-hex string (sign/underscore forms that never
arise from the validated color slices are outside the model). -/
def pyIntHex (cs : List Char) : Option Nat :=
  match cs with
  | [] => none
  | _ => pyIntHexGo 0 cs

/-- Embedding of `drawing.hex_to_rgb`: parse the slices `[0:2]`, `[2:4]`, `[4:6]`
of the color string with `int(·, 16)`. -/
def hex_to_rgb (color : String) : Option (Nat × Nat × Nat) :=
  match pyIntHex (color.data.take 2), pyIntHex ((color.data.drop 2).take 2),
      pyIntHex ((color.data.drop 4).take 2) with
  | some r, some g, some b => some (r, g, b)
  | _, _, _ => none

/-- Embedding of `commands.AsepriteCommandError`: message plus the offending
argument list (`command` attribute, `None` when not supplied). -/
structure AsepriteCommandError where
  message : String
  command : Option (List String)
deriving DecidableEq, Repr

/-- Outcome of one `subprocess.run` call, chosen by the environment: the child
exits with a return code and captured text streams, the wall-clock timeout
fires, the executable is missing, or some other exception escapes the
subprocess layer. -/
inductive SubprocessOutcome where
  | exited (returncode : Int) (stdout stderr : String)
  | timedOut
  | execNotFound
  | unexpected (message : String)
deriving DecidableEq, Repr

/-- Embedding of `AsepriteCommand.run_command`.  The executable path (read once
from `ASEPRITE_PATH` with default `"aseprite"`) is passed explicitly.  With
`check=True`, exit code 0 returns `(True, stdout)`, a nonzero exit raises
`CalledProcessError` which is caught and returned as `(False, stderr)`, and
timeout / missing executable / unexpected exceptions are re-raised as
`AsepriteCommandError` carrying the full command list. -/
def run_command (asepritePath : String) (args : List String) (timeout : Nat)
    (outcome : SubprocessOutcome) : Except AsepriteCommandError (Bool × String) :=
  let cmd := asepritePath :: args
  match outcome with
  | .exited rc out err => if rc = 0 then .ok (true, out) else .ok (false, err)
  | .timedOut =>
    .error ⟨"Command timed out after " ++ toString timeout ++ " seconds", some cmd⟩
  | .execNotFound =>
    .error ⟨"Aseprite executable not found: " ++ asepritePath, some cmd⟩
  | .unexpected m =>
    .error ⟨"Unexpected error running command: " ++ m, some cmd⟩

/-- Filesystem state: the set (list) of paths that currently exist. -/
structure FS where
  files : List String
deriving DecidableEq, Repr

/-- Environment of one `execute_lua_script` call: the fresh temporary path
handed out by `tempfile.NamedTemporaryFile(suffix=".lua", delete=False)`, the
subprocess oracle, and whether the final `os.remove` raises `OSError` (in
which case the temp file persists and the failure is only logged). -/
structure ExecEnv where
  tmpPath : String
  outcome : SubprocessOutcome
  removeRaises : Bool
deriving DecidableEq, Repr

/-- Ghost trace of one call: temp files created, argument lists passed to
`run_command`, and paths on which `os.remove` was attempted. -/
structure ExecTrace where
  createdFiles : List String
  runCalls : List (List String)
  removeAttempts : List String
deriving DecidableEq, Repr

/-- The empty trace: no temp file written, no subprocess spawned. -/
def emptyTrace : ExecTrace := ⟨[], [], []⟩

/-- Embedding of `AsepriteCommand.execute_lua_script`.  A blank body raises
before any temp file exists; otherwise the script is written to the fresh temp
path, the argument list is `--batch`, then the target document only when it is
truthy (a non-empty string) and exists on disk (a missing one is logged and
skipped), then `--script` and the temp path; `run_command` runs inside
`try/finally`, so the `os.remove` cleanup happens whether it returns or
raises, and an `OSError` from the cleanup is swallowed. -/
def execute_lua_script (asepritePath : String) (script_content : String)
    (filename : Option String) (timeout : Nat) (fs : FS) (env : ExecEnv) :
    Except AsepriteCommandError (Bool × String) × FS × ExecTrace :=
  if pyStrip script_content = "" then
    (.error ⟨"Script content cannot be empty", none⟩, fs, emptyTrace)
  else
    let script_path := env.tmpPath
    let fs1 : FS := ⟨script_path :: fs.files⟩
    let args0 : List String := ["--batch"]
    let args1 : List String :=
      match filename with
      | none => args0
      | some f => if f ≠ "" then (if f ∈ fs1.files then args0 ++ [f] else args0) else args0
    let args := args1 ++ ["--script", script_path]
    let result := run_command asepritePath args timeout env.outcome
    let fs2 : FS := if env.removeRaises then fs1 else ⟨fs1.files.erase script_path⟩
    (result, fs2, ⟨[script_path], [args], [script_path]⟩)

/-- Claim C1: `run_command` returns `(true, stdout)` on exit code 0, returns
`(false, stderr)` on any nonzero exit code, and yields a raised command error
only for the timeout, missing-executable, or unexpected-failure outcomes —
never for a nonzero exit code. -/
theorem run_command_exit_code_contract (path : String) (args : List String) (t : Nat) :
    (∀ out err, run_command path args t (.exited 0 out err) = .ok (true, out)) ∧
    (∀ rc out err, rc ≠ 0 → run_command path args t (.exited rc out err) = .ok (false, err)) ∧
    (∀ oc e, run_command path args t oc = .error e →
      oc = .timedOut ∨ oc = .execNotFound ∨ ∃ m, oc = .unexpected m) := by
  refine ⟨fun out err => rfl, fun rc out err h => ?_, fun oc e h => ?_⟩
  · simp [run_command, h]
  · cases oc with
    | exited rc out err =>
      by_cases h0 : rc = 0 <;> simp [run_command, h0] at h
    | timedOut => exact Or.inl rfl
    | execNotFound => exact Or.inr (Or.inl rfl)
    | unexpected m => exact Or.inr (Or.inr ⟨m, rfl⟩)

/-- Concrete instance of claim C1 at exit codes 0 and 1 and at a timeout. -/
theorem run_command_exit_code_contract_witness :
    run_command "aseprite" ["--batch"] 30 (.exited 0 "ok" "") = .ok (true, "ok") ∧
    run_command "aseprite" ["--batch"] 30 (.exited 1 "" "boom") = .ok (false, "boom") ∧
    (SubprocessOutcome.timedOut = SubprocessOutcome.timedOut ∨
      SubprocessOutcome.timedOut = SubprocessOutcome.execNotFound ∨
      ∃ m, SubprocessOutcome.timedOut = SubprocessOutcome.unexpected m) :=
  ⟨(run_command_exit_code_contract "aseprite" ["--batch"] 30).1 "ok" "",
   (run_command_exit_code_contract "aseprite" ["--batch"] 30).2.1 1 "" "boom" (by decide),
   (run_command_exit_code_contract "aseprite" ["--batch"] 30).2.2 .timedOut
     ⟨"Command timed out after 30 seconds", some ["aseprite", "--batch"]⟩ (by rfl)⟩

/-- Claim C5: on timeout, `run_command` raises a command error whose message
states the timeout value and whose payload is the full command list with the
executable prepended; on a missing executable it raises a command error naming
that executable path.  Both are `Except.error` results, never `(false, ·)`. -/
theorem run_command_timeout_and_missing_executable (path : String) (args : List String) (t : Nat) :
    run_command path args t .timedOut =
      .error ⟨"Command timed out after " ++ toString t ++ " seconds", some (path :: args)⟩ ∧
    run_command path args t .execNotFound =
      .error ⟨"Aseprite executable not found: " ++ path, some (path :: args)⟩ :=
  ⟨rfl, rfl⟩

/-- Claim C4: a blank (empty or whitespace-only) script body makes
`execute_lua_script` raise the command error immediately: the filesystem is
untouched (no temp file written) and no subprocess call is recorded. -/
theorem execute_lua_script_rejects_blank (ase sc : String) (fn : Option String)
    (t : Nat) (fs : FS) (env : ExecEnv) (h : pyStrip sc = "") :
    execute_lua_script ase sc fn t fs env =
      (.error ⟨"Script content cannot be empty", none⟩, fs, emptyTrace) := by
  simp [execute_lua_script, h]

/-- Concrete instance of claim C4 on the whitespace-only body `" \t "`. -/
theorem execute_lua_script_rejects_blank_witness :
    execute_lua_script "aseprite" " \t " none 30 ⟨["doc.ase"]⟩
        ⟨"/tmp/tmpa.lua", .exited 0 "" "", false⟩ =
      (.error ⟨"Script content cannot be empty", none⟩, ⟨["doc.ase"]⟩, emptyTrace) :=
  execute_lua_script_rejects_blank "aseprite" " \t " none 30 ⟨["doc.ase"]⟩
    ⟨"/tmp/tmpa.lua", .exited 0 "" "", false⟩ (by decide)

/-- Claim C2 counterexample: when the final `os.remove` raises `OSError`
(e.g. a permission failure), `execute_lua_script` still returns normally
(here `(true, "ok")`), the failure is only logged — and the temporary script
file still exists after the call, contradicting the unconditional
"no longer exists after the call returns" reading of the claim. -/
theorem execute_lua_script_leftover_tmp_on_remove_failure :
    (execute_lua_script "aseprite" "return 1" none 30 ⟨[]⟩
        ⟨"/tmp/tmpb.lua", .exited 0 "ok" "", true⟩).1 = .ok (true, "ok") ∧
    "/tmp/tmpb.lua" ∈ (execute_lua_script "aseprite" "return 1" none 30 ⟨[]⟩
        ⟨"/tmp/tmpb.lua", .exited 0 "ok" "", true⟩).2.1.files := by
  constructor
  · rfl
  · decide

/-- Claim C2 (amended): for every non-blank body, `execute_lua_script` creates
exactly one fresh temporary script file, attempts its deletion on every exit
path (after `run_command` returns or raises), and whenever that deletion
succeeds the file no longer exists afterwards; a deletion failure is never
raised and never changes the returned value. -/
theorem execute_lua_script_temp_file_lifecycle (ase sc : String) (fn : Option String)
    (t : Nat) (fs : FS) (env : ExecEnv)
    (hs : pyStrip sc ≠ "") (hfresh : env.tmpPath ∉ fs.files) :
    (execute_lua_script ase sc fn t fs env).2.2.createdFiles = [env.tmpPath] ∧
    (execute_lua_script ase sc fn t fs env).2.2.removeAttempts = [env.tmpPath] ∧
    (env.removeRaises = false →
      env.tmpPath ∉ (execute_lua_script ase sc fn t fs env).2.1.files) ∧
    (execute_lua_script ase sc fn t fs env).1 =
      (execute_lua_script ase sc fn t fs { env with removeRaises := false }).1 := by
  unfold execute_lua_script
  simp only [if_neg hs]
  refine ⟨trivial, trivial, ?_, trivial⟩
  intro hrr
  simpa [hrr, List.erase_cons_head] using hfresh


/-- Concrete instance of claim C2 (amended): one successful run with a working
`os.remove`; the temp file is created, a removal is attempted, and the file is
gone afterwards. -/
theorem execute_lua_script_temp_file_lifecycle_witness :
    (execute_lua_script "aseprite" "return 1" none 30 ⟨["doc.ase"]⟩
        ⟨"/tmp/tmpc.lua", .exited 0 "ok" "", false⟩).2.2.createdFiles = ["/tmp/tmpc.lua"] ∧
    (execute_lua_script "aseprite" "return 1" none 30 ⟨["doc.ase"]⟩
        ⟨"/tmp/tmpc.lua", .exited 0 "ok" "", false⟩).2.2.removeAttempts = ["/tmp/tmpc.lua"] ∧
    "/tmp/tmpc.lua" ∉ (execute_lua_script "aseprite" "return 1" none 30 ⟨["doc.ase"]⟩
        ⟨"/tmp/tmpc.lua", .exited 0 "ok" "", false⟩).2.1.files := by
  obtain ⟨h1, h2, h3, h4⟩ := execute_lua_script_temp_file_lifecycle "aseprite" "return 1" none 30
    ⟨["doc.ase"]⟩ ⟨"/tmp/tmpc.lua", .exited 0 "ok" "", false⟩ (by decide) (by decide)
  exact ⟨h1, h2, h3 rfl⟩

/-- Claim C6: for a non-blank body the argument list handed to `run_command`
is the batch flag, then the target document exactly when one was (truthily)
provided and exists on disk, then the script flag and the temporary path; a
provided-but-missing document is silently omitted, leaving the result the same
as if no document had been provided. -/
theorem execute_lua_script_argument_order (ase sc : String) (t : Nat) (fs : FS)
    (env : ExecEnv) (fn : Option String)
    (hs : pyStrip sc ≠ "")
    (hfn : ∀ s, fn = some s → s ≠ env.tmpPath) :
    (execute_lua_script ase sc fn t fs env).2.2.runCalls =
      [["--batch"] ++
        (match fn with
         | none => []
         | some f => if f ≠ "" ∧ f ∈ fs.files then [f] else []) ++
        ["--script", env.tmpPath]] ∧
    (∀ s, fn = some s → s ∉ fs.files →
      (execute_lua_script ase sc fn t fs env).1 =
        (execute_lua_script ase sc none t fs env).1) := by
  cases fn with
  | none =>
    refine ⟨by simp [execute_lua_script, if_neg hs], ?_⟩
    intro s hsome
    cases hsome
  | some f =>
    have hne : f ≠ env.tmpPath := hfn f rfl
    constructor
    · by_cases hemp : f = ""
      · simp [execute_lua_script, if_neg hs, hemp]
      · by_cases hmem : f ∈ fs.files
        · simp [execute_lua_script, if_neg hs, hemp, hmem, List.mem_cons, hne]
        · simp [execute_lua_script, if_neg hs, hemp, hmem, List.mem_cons, hne]
    · intro s hsome hnm
      cases hsome
      simp [execute_lua_script, if_neg hs, List.mem_cons, hne, hnm]

/-- Concrete instance of claim C6: an existing target document appears between
the batch flag and the script flag. -/
theorem execute_lua_script_argument_order_witness :
    (execute_lua_script "aseprite" "return 1" (some "doc.ase") 30 ⟨["doc.ase"]⟩
        ⟨"/tmp/tmpd.lua", .exited 0 "ok" "", false⟩).2.2.runCalls =
      [["--batch", "doc.ase", "--script", "/tmp/tmpd.lua"]] := by
  have h := (execute_lua_script_argument_order "aseprite" "return 1" 30 ⟨["doc.ase"]⟩
    ⟨"/tmp/tmpd.lua", .exited 0 "ok" "", false⟩ (some "doc.ase") (by decide)
    (fun s hsome => by cases hsome; decide)).1
  simpa using h

/-- Uppercasing a character yields an uppercase hex digit exactly when the
character was a hex digit of either case. -/
theorem isHexUpper_pyUpperChar (c : Char) : isHexUpper (pyUpperChar c) = isHexDigitCI c := by
  have h := charCode_pyUpperChar c
  simp only [isHexUpper, isHexDigitCI, h]
  split
  · next hc => exact decide_eq_decide.mpr (by omega)
  · next hc => exact decide_eq_decide.mpr (by omega)

/-- Uppercasing never produces or destroys a newline. -/
theorem charCode_pyUpperChar_eq_ten (c : Char) :
    (charCode (pyUpperChar c) = 10) ↔ (charCode c = 10) := by
  rw [charCode_pyUpperChar]
  split <;> omega

/-- Pattern `^#*[0-9A-Fa-f]\x7b6\x7d$` on the raw input (any number of leading `#`
markers, six hex digits of either case, `$` also matching before one final
newline): the amended characterization of the accepted color strings. -/
def specHexColorAccepted (s : String) : Bool :=
  let t := s.data.dropWhile (fun ch => ch = '#')
  (decide (t.length = 6) && t.all isHexDigitCI) ||
  (decide (t.length = 7) && (t.take 6).all isHexDigitCI &&
    decide (t.getLast?.map charCode = some 10))

/-- The source's regex test after uppercasing coincides with the
case-insensitive pattern on the original characters. -/
theorem reMatchHex6_map_pyUpperChar (t : List Char) :
    reMatchHex6 (t.map pyUpperChar) =
      ((decide (t.length = 6) && t.all isHexDigitCI) ||
       (decide (t.length = 7) && (t.take 6).all isHexDigitCI &&
         decide (t.getLast?.map charCode = some 10))) := by
  unfold reMatchHex6
  have hlen : (t.map pyUpperChar).length = t.length := List.length_map _ _
  have hall : (t.map pyUpperChar).all isHexUpper = t.all isHexDigitCI := by
    rw [List.all_map]
    exact congrArg _ (funext isHexUpper_pyUpperChar)
  have htake : ((t.map pyUpperChar).take 6).all isHexUpper = (t.take 6).all isHexDigitCI := by
    rw [← List.map_take, List.all_map]
    exact congrArg _ (funext isHexUpper_pyUpperChar)
  have hlast : decide ((t.map pyUpperChar).getLast?.map charCode = some 10) =
      decide (t.getLast?.map charCode = some 10) := by
    rw [List.getLast?_map]
    refine decide_eq_decide.mpr ?_
    cases t.getLast? with
    | none => simp
    | some x => simpa using charCode_pyUpperChar_eq_ten x
  rw [hlen, hall, htake, hlast]

/-- Claim C3 counterexample: `"##ABCDEF"` does not match `^#?[0-9A-Fa-f]\x7b6\x7d$`
(after one optional marker, `#ABCDEF` is not six hex digits), yet the source's
`lstrip("#")` removes every leading marker, so validation succeeds; likewise
`"ABCDEF\n"` is accepted because the regex anchor `$` matches before a final
newline. -/
theorem validate_hex_color_counterexample :
    validate_hex_color "##ABCDEF" = (true, "ABCDEF") ∧
    validate_hex_color "ABCDEF\n" = (true, "ABCDEF\n") := by
  constructor <;> decide

/-- Claim C3 (amended): validation succeeds exactly on strings of the form
`^#*[0-9A-Fa-f]\x7b6\x7d$` (any number of leading `#` markers, six hex digits,
optionally one final newline tolerated by the `$` anchor), and the returned
color is always the input with all leading markers removed and uppercased. -/
theorem validate_hex_color_characterization (s : String) :
    (validate_hex_color s).1 = specHexColorAccepted s ∧
    (validate_hex_color s).2 = pyUpper ⟨s.data.dropWhile (fun ch => ch = '#')⟩ := by
  unfold validate_hex_color specHexColorAccepted
  have key := reMatchHex6_map_pyUpperChar (s.data.dropWhile (fun ch => ch = '#'))
  constructor
  · show (if reMatchHex6 (pyUpper ⟨s.data.dropWhile (fun ch => ch = '#')⟩).data
        then (true, pyUpper ⟨s.data.dropWhile (fun ch => ch = '#')⟩)
        else (false, pyUpper ⟨s.data.dropWhile (fun ch => ch = '#')⟩)).1 = _
    rw [show (pyUpper ⟨s.data.dropWhile (fun ch => ch = '#')⟩).data =
        (s.data.dropWhile (fun ch => ch = '#')).map pyUpperChar from rfl, key]
    split <;> simp_all
  · show (if reMatchHex6 (pyUpper ⟨s.data.dropWhile (fun ch => ch = '#')⟩).data
        then (true, pyUpper ⟨s.data.dropWhile (fun ch => ch = '#')⟩)
        else (false, pyUpper ⟨s.data.dropWhile (fun ch => ch = '#')⟩)).2 = _
    split <;> rfl

set_option maxRecDepth 4000 in
/-- Uppercasing does not change the value of a hex digit (nor whether it is one). -/
theorem hexDigitVal_pyUpperChar (c : Char) : hexDigitVal (pyUpperChar c) = hexDigitVal c := by
  have h := charCode_pyUpperChar c
  unfold hexDigitVal
  rw [h]
  split_ifs <;> simp_all <;> omega

/-- A hex digit of either case always has a digit value. -/
theorem hexDigitVal_isSome_of_CI (c : Char) (h : isHexDigitCI c = true) :
    ∃ v, hexDigitVal c = some v := by
  simp only [isHexDigitCI, decide_eq_true_eq] at h
  unfold hexDigitVal
  split_ifs <;> first | exact ⟨_, rfl⟩ | (exfalso; omega)

/-- A hex digit is never the `#` marker. -/
theorem isHexDigitCI_ne_hash (c : Char) (h : isHexDigitCI c = true) : c ≠ '#' := by
  intro he
  subst he
  exact absurd h (by decide)

/-- Dropping leading `#` markers from `###...###` followed by a non-marker
character stops exactly at that character. -/
theorem dropWhileHash_replicate_append (k : Nat) (c : Char) (rest : List Char)
    (hc : c ≠ '#') :
    (List.replicate k '#' ++ c :: rest).dropWhile (fun ch => ch = '#') = c :: rest := by
  induction k with
  | zero => simp [List.dropWhile, hc]
  | succ n ih => simpa [List.replicate_succ, List.dropWhile] using ih

/-- Byte value denoted by two hex digits (the value `int(ab, 16)` computes). -/
def hexByte (a b : Char) : Nat := 16 * (hexDigitVal a).getD 0 + (hexDigitVal b).getD 0

/-- Claim C8: for any string of optional leading markers followed by six hex
digits of either case, validation succeeds and `hex_to_rgb` applied to the
normalized form reproduces the three byte values denoted by the original
digits. -/
theorem hex_to_rgb_after_validate (k : Nat) (c0 c1 c2 c3 c4 c5 : Char) (s : String)
    (hshape : s.data = List.replicate k '#' ++ [c0, c1, c2, c3, c4, c5])
    (hhex : ([c0, c1, c2, c3, c4, c5] : List Char).all isHexDigitCI = true) :
    (validate_hex_color s).1 = true ∧
    hex_to_rgb (validate_hex_color s).2 =
      some (hexByte c0 c1, hexByte c2 c3, hexByte c4 c5) := by
  simp only [List.all_cons, List.all_nil, Bool.and_true, Bool.and_eq_true] at hhex
  obtain ⟨h0, h1, h2, h3, h4, h5⟩ := hhex
  have hdrop : s.data.dropWhile (fun ch => ch = '#') = [c0, c1, c2, c3, c4, c5] := by
    rw [hshape]
    exact dropWhileHash_replicate_append k c0 [c1, c2, c3, c4, c5] (isHexDigitCI_ne_hash c0 h0)
  have hval : validate_hex_color s =
      (true, ⟨[pyUpperChar c0, pyUpperChar c1, pyUpperChar c2, pyUpperChar c3,
        pyUpperChar c4, pyUpperChar c5]⟩) := by
    unfold validate_hex_color
    simp only [hdrop]
    rw [if_pos]
    · rfl
    · simp [reMatchHex6, pyUpper, isHexUpper_pyUpperChar, h0, h1, h2, h3, h4, h5]
  obtain ⟨v0, hv0⟩ := hexDigitVal_isSome_of_CI c0 h0
  obtain ⟨v1, hv1⟩ := hexDigitVal_isSome_of_CI c1 h1
  obtain ⟨v2, hv2⟩ := hexDigitVal_isSome_of_CI c2 h2
  obtain ⟨v3, hv3⟩ := hexDigitVal_isSome_of_CI c3 h3
  obtain ⟨v4, hv4⟩ := hexDigitVal_isSome_of_CI c4 h4
  obtain ⟨v5, hv5⟩ := hexDigitVal_isSome_of_CI c5 h5
  refine ⟨by rw [hval], ?_⟩
  rw [hval]
  simp [hex_to_rgb, pyIntHex, pyIntHexGo, hexDigitVal_pyUpperChar, hexByte,
    hv0, hv1, hv2, hv3, hv4, hv5]

/-- Concrete instances of claim C8: the two examples from the specification. -/
theorem hex_to_rgb_after_validate_witness :
    hex_to_rgb (validate_hex_color "FF0000").2 = some (255, 0, 0) ∧
    hex_to_rgb (validate_hex_color "00ff00").2 = some (0, 255, 0) ∧
    validate_hex_color "00ff00" = (true, "00FF00") := by
  refine ⟨?_, ?_, by decide⟩
  · exact ((hex_to_rgb_after_validate 0 'F' 'F' '0' '0' '0' '0' "FF0000"
      (by decide) (by decide)).2).trans (by decide)
  · exact ((hex_to_rgb_after_validate 0 '0' '0' 'f' 'f' '0' '0' "00ff00"
      (by decide) (by decide)).2).trans (by decide)

/-- Split a character list on `/` separators. -/
def splitSlash : List Char → List (List Char)
  | [] => [[]]
  | c :: rest =>
    let r := splitSlash rest
    if c = '/' then [] :: r
    else
      match r with
      | [] => [[c]]
      | p :: ps => (c :: p) :: ps

/-- Components of a POSIX path as `pathlib` keeps them: empty segments
(spurious slashes) and single-dot segments are collapsed, `..` is kept.
The leading-double-slash special case of `PurePosixPath` is immaterial to the
paths this code builds. -/
def pathParts (p : String) : List String :=
  ((splitSlash p.data).map (fun cs => (⟨cs⟩ : String))).filter (fun q => q ≠ "" ∧ q ≠ ".")

/-- `PurePosixPath(p).name`: the final component, `""` when there is none. -/
def pathName (p : String) : String := ((pathParts p).getLast?).getD ""

/-- Position of the last dot of a character list, as `str.rfind(".")` sees it. -/
def lastDotIdx : List Char → Option Nat
  | [] => none
  | c :: rest =>
    match lastDotIdx rest with
    | some i => some (i + 1)
    | none => if c = '.' then some 0 else none

/-- `PurePosixPath(p).stem`: the name without its suffix; `pathlib` recognises
a suffix only when the last dot of the name sits strictly inside it. -/
def pathStem (p : String) : String :=
  match lastDotIdx (pathName p).data with
  | some i =>
    if 0 < i ∧ i < (pathName p).data.length - 1 then ⟨(pathName p).data.take i⟩
    else pathName p
  | none => pathName p

/-- `PurePosixPath(p).suffix`: the extension of the final component, or `""`. -/
def pathSuffix (p : String) : String :=
  match lastDotIdx (pathName p).data with
  | some i =>
    if 0 < i ∧ i < (pathName p).data.length - 1 then ⟨(pathName p).data.drop i⟩
    else ""
  | none => ""

/-- `str(PurePosixPath(dir) / f)` for the joins this code performs: an empty
or dot component disappears, an absolute second argument wins, anything else
is appended after a slash. -/
def pathJoin (dir f : String) : String :=
  if f = "" ∨ f = "." then dir
  else if f.data.head? = some '/' then f
  else dir ++ "/" ++ f

/-- `PurePosixPath(p).parent`: all components but the last. -/
def pathParent (p : String) : String :=
  let isAbs := p.data.head? = some '/'
  match (pathParts p).dropLast with
  | [] => if isAbs then "/" else "."
  | qs => (if isAbs then "/" else "") ++ String.intercalate "/" qs

/-- A slash-free character list is a single component. -/
theorem splitSlash_no_slash (cs : List Char) (h : '/' ∉ cs) : splitSlash cs = [cs] := by
  induction cs with
  | nil => rfl
  | cons c rest ih =>
    have hc : c ≠ '/' := fun e => h (e ▸ List.mem_cons_self c rest)
    have hr : '/' ∉ rest := fun hm => h (List.mem_cons_of_mem _ hm)
    simp [splitSlash, hc, ih hr]

/-- Splitting a slash-free segment followed by a separator peels the segment. -/
theorem splitSlash_seg_append (seg rest : List Char) (h : '/' ∉ seg) :
    splitSlash (seg ++ '/' :: rest) = seg :: splitSlash rest := by
  induction seg with
  | nil => simp [splitSlash]
  | cons c s ih =>
    have hc : c ≠ '/' := fun e => h (e ▸ List.mem_cons_self c s)
    have hs : '/' ∉ s := fun hm => h (List.mem_cons_of_mem _ hm)
    simp [splitSlash, hc, ih hs]

/-- Every component produced by `splitSlash` is slash-free. -/
theorem splitSlash_mem_no_slash (cs : List Char) (piece : List Char)
    (hp : piece ∈ splitSlash cs) : '/' ∉ piece := by
  induction cs generalizing piece with
  | nil =>
    simp only [splitSlash, List.mem_singleton] at hp
    subst hp
    simp
  | cons c rest ih =>
    by_cases hc : c = '/'
    · subst hc
      rw [show splitSlash ('/' :: rest) = [] :: splitSlash rest by simp [splitSlash]] at hp
      rcases List.mem_cons.mp hp with hp | hp
      · subst hp; simp
      · exact ih piece hp
    · cases he : splitSlash rest with
      | nil =>
        rw [show splitSlash (c :: rest) = [[c]] by simp [splitSlash, hc, he]] at hp
        simp only [List.mem_singleton] at hp
        subst hp
        simp only [List.mem_singleton]
        exact fun e => hc e.symm
      | cons q ps =>
        rw [show splitSlash (c :: rest) = (c :: q) :: ps by simp [splitSlash, hc, he]] at hp
        rcases List.mem_cons.mp hp with hp | hp
        · subst hp
          intro hm
          rcases List.mem_cons.mp hm with hm | hm
          · exact hc hm.symm
          · exact ih q (by rw [he]; exact List.mem_cons_self q ps) hm
        · exact ih piece (by rw [he]; exact List.mem_cons_of_mem q hp)

/-- The final path component never contains a slash. -/
theorem pathName_no_slash (p : String) : '/' ∉ (pathName p).data := by
  unfold pathName
  cases hl : (pathParts p).getLast? with
  | none => simp
  | some q =>
    have hq := List.mem_of_mem_getLast? hl
    unfold pathParts at hq
    obtain ⟨hmem, _⟩ := List.mem_filter.mp hq
    obtain ⟨piece, hpiece, hpq⟩ := List.mem_map.mp hmem
    subst hpq
    exact splitSlash_mem_no_slash p.data piece hpiece

/-- The final path component is never the single-dot segment. -/
theorem pathName_ne_dot (p : String) : pathName p ≠ "." := by
  unfold pathName
  cases hl : (pathParts p).getLast? with
  | none => simp
  | some q =>
    have hq := List.mem_of_mem_getLast? hl
    unfold pathParts at hq
    obtain ⟨_, hcond⟩ := List.mem_filter.mp hq
    simp only [decide_eq_true_eq] at hcond
    simpa using hcond.2

/-- A plain (non-empty, non-dot, slash-free) string is its own single component. -/
theorem pathParts_of_simple (f : String) (hne : f ≠ "") (hdot : f ≠ ".") (hns : '/' ∉ f.data) :
    pathParts f = [f] := by
  unfold pathParts
  rw [splitSlash_no_slash f.data hns]
  simp [List.filter, hne, hdot]

/-- Taking the final component is idempotent. -/
theorem pathName_idem (p : String) : pathName (pathName p) = pathName p := by
  by_cases h : pathName p = ""
  · rw [h]
    rfl
  · conv_lhs => rw [pathName]
    rw [pathParts_of_simple _ h (pathName_ne_dot p) (pathName_no_slash p)]
    rfl

/-- The stem only depends on the final component. -/
theorem pathStem_pathName (p : String) : pathStem (pathName p) = pathStem p := by
  unfold pathStem
  rw [pathName_idem]

/-- Python `str.endswith` (total, on whole strings). -/
def pyEndsWith (s suffix : String) : Bool := decide (suffix.data <:+ s.data)

/-- Embedding of `export.get_downloads_dir`: the fixed container downloads
directory (its `mkdir(exist_ok=True)` side effect is immaterial here). -/
def get_downloads_dir : String := "/app/downloads"

/-- Embedding of `export.prepare_output_path`: keep only the final component
of the requested name, append the format extension unless already present
case-insensitively, and place the file in the downloads directory. -/
def prepare_output_path (output_filename : String) (format : String) : String :=
  let downloads_dir := get_downloads_dir
  let filename := pathName output_filename
  let filename2 :=
    if pyEndsWith (pyLower filename) ("." ++ format) then filename
    else pathStem output_filename ++ "." ++ format
  pathJoin downloads_dir filename2

/-- Components of a downloads-directory path with a plain final component. -/
theorem pathParts_downloads (f : String) (hne : f ≠ "") (hdot : f ≠ ".") (hns : '/' ∉ f.data) :
    pathParts ("/app/downloads/" ++ f) = ["app", "downloads", f] := by
  unfold pathParts
  have hdata : ("/app/downloads/" ++ f).data =
      '/' :: (['a', 'p', 'p'] ++ ('/' :: (['d', 'o', 'w', 'n', 'l', 'o', 'a', 'd', 's'] ++
        ('/' :: f.data)))) := by
    rw [String.data_append]
    rfl
  rw [hdata]
  rw [show splitSlash ('/' :: (['a', 'p', 'p'] ++ ('/' :: (['d', 'o', 'w', 'n', 'l', 'o', 'a', 'd', 's'] ++ ('/' :: f.data))))) =
      [] :: splitSlash (['a', 'p', 'p'] ++ ('/' :: (['d', 'o', 'w', 'n', 'l', 'o', 'a', 'd', 's'] ++ ('/' :: f.data)))) from by simp [splitSlash]]
  rw [splitSlash_seg_append _ _ (by decide), splitSlash_seg_append _ _ (by decide),
    splitSlash_no_slash f.data hns]
  simp [List.filter, hne, hdot]

/-- Parent of a downloads-directory path with a plain final component. -/
theorem pathParent_downloads (f : String) (hne : f ≠ "") (hdot : f ≠ ".") (hns : '/' ∉ f.data) :
    pathParent ("/app/downloads/" ++ f) = "/app/downloads" := by
  unfold pathParent
  rw [pathParts_downloads f hne hdot hns]
  rfl

/-- The stem of a path never contains a slash. -/
theorem pathStem_no_slash (p : String) : '/' ∉ (pathStem p).data := by
  unfold pathStem
  cases hidx : lastDotIdx (pathName p).data with
  | none =>
    simp only [hidx]
    exact pathName_no_slash p
  | some i =>
    simp only [hidx]
    split
    · intro hm
      exact pathName_no_slash p (List.take_subset _ _ hm)
    · exact pathName_no_slash p

/-- A string whose character list is headed by a cons is non-empty. -/
theorem string_ne_empty_of_data_ne_nil (s : String) (h : s.data ≠ []) : s ≠ "" := by
  intro e
  subst e
  exact h rfl

/-- Claim C10 counterexample: with a format containing a path separator, the
returned path's parent is not the downloads directory (the claim quantified
over every format). -/
theorem prepare_output_path_counterexample :
    prepare_output_path "sub/dir/result" "p/ng" = "/app/downloads/result.p/ng" ∧
    pathParent (prepare_output_path "sub/dir/result" "p/ng") ≠ "/app/downloads" := by
  constructor <;> decide

/-- Claim C10 (amended): for every output name and every non-empty,
separator-free format, the prepared path consists of the fixed downloads
directory `/app/downloads` as parent plus a single final component, and it
depends on the output name only through its final component (any directory
prefix is discarded). -/
theorem prepare_output_path_in_downloads (o fmt : String)
    (hns : '/' ∉ fmt.data) (hne : fmt ≠ "") :
    (∃ g, prepare_output_path o fmt = "/app/downloads/" ++ g ∧ g ≠ "" ∧ '/' ∉ g.data ∧
      pathParent (prepare_output_path o fmt) = "/app/downloads") ∧
    prepare_output_path o fmt = prepare_output_path (pathName o) fmt := by
  constructor
  · unfold prepare_output_path get_downloads_dir
    set g := (if pyEndsWith (pyLower (pathName o)) ("." ++ fmt) then pathName o
      else pathStem o ++ "." ++ fmt) with hgdef
    have hgne : g ≠ "" := by
      rw [hgdef]
      split
      · next hcond =>
        have hsuf : ("." ++ fmt).data <:+ (pyLower (pathName o)).data := by
          simpa [pyEndsWith] using hcond
        apply string_ne_empty_of_data_ne_nil
        intro hnil
        rw [show (pyLower (pathName o)).data = (pathName o).data.map pyLowerChar from rfl,
          hnil, List.map_nil, List.suffix_nil] at hsuf
        have : ('.' :: fmt.data : List Char) = [] := by
          rw [← hsuf]
          rfl
        cases this
      · apply string_ne_empty_of_data_ne_nil
        intro hnil
        rw [String.data_append, String.data_append] at hnil
        rcases List.append_eq_nil.mp hnil with ⟨h1, _⟩
        rcases List.append_eq_nil.mp h1 with ⟨_, h2⟩
        exact absurd h2 (by decide)
    have hgns : '/' ∉ g.data := by
      rw [hgdef]
      split
      · exact pathName_no_slash o
      · rw [String.data_append, String.data_append]
        intro hm
        rcases List.mem_append.mp hm with hm | hm
        · rcases List.mem_append.mp hm with hm | hm
          · exact pathStem_no_slash o hm
          · exact absurd hm (by decide)
        · exact hns hm
    have hgdot : g ≠ "." := by
      rw [hgdef]
      split
      · exact pathName_ne_dot o
      · intro he
        have hd : (pathStem o).data ++ ['.'] ++ fmt.data = ['.'] := by
          have hdd := congrArg String.data he
          rw [String.data_append, String.data_append] at hdd
          exact hdd
        have hlen := congrArg List.length hd
        simp only [List.length_append, List.length_cons, List.length_nil] at hlen
        have hf : fmt.data = [] := List.length_eq_zero.mp (by omega)
        exact hne (String.ext hf)
    have hjoin : pathJoin "/app/downloads" g = "/app/downloads/" ++ g := by
      unfold pathJoin
      rw [if_neg (by push_neg; exact ⟨hgne, hgdot⟩), if_neg ?_]
      · rw [show ("/app/downloads" ++ "/" : String) = "/app/downloads/" from rfl]
      · intro hh
        apply hgns
        cases hg : g.data with
        | nil => rw [hg] at hh; cases hh
        | cons a l =>
          rw [hg] at hh
          simp only [List.head?] at hh
          cases hh
          exact List.mem_cons_self _ _
    refine ⟨g, ?_, hgne, hgns, ?_⟩
    · exact hjoin
    · rw [hjoin]
      exact pathParent_downloads g hgne hgdot hgns
  · unfold prepare_output_path
    rw [pathName_idem, pathStem_pathName]

/-- Concrete instance of claim C10 (amended): a nested requested name lands
directly in the downloads directory and only its final component matters. -/
theorem prepare_output_path_in_downloads_witness :
    pathParent (prepare_output_path "sub/dir/result" "png") = "/app/downloads" ∧
    prepare_output_path "sub/dir/result" "png" = prepare_output_path "result" "png" ∧
    prepare_output_path "sub/dir/result" "png" = "/app/downloads/result.png" := by
  obtain ⟨⟨g, hg, hne, hns, hpar⟩, hinv⟩ :=
    prepare_output_path_in_downloads "sub/dir/result" "png" (by decide) (by decide)
  exact ⟨hpar, hinv, by decide⟩

/-- A stem-plus-extension component is never empty. -/
theorem stemExt_ne_empty (o fmt : String) : pathStem o ++ "." ++ fmt ≠ "" := by
  apply string_ne_empty_of_data_ne_nil
  intro hnil
  rw [String.data_append, String.data_append] at hnil
  rcases List.append_eq_nil.mp hnil with ⟨h1, _⟩
  rcases List.append_eq_nil.mp h1 with ⟨_, h2⟩
  exact absurd h2 (by decide)

/-- A stem-plus-extension component is never the dot segment when the format
is non-empty. -/
theorem stemExt_ne_dot (o fmt : String) (hne : fmt ≠ "") : pathStem o ++ "." ++ fmt ≠ "." := by
  intro he
  have hd : (pathStem o).data ++ ('.' :: []) ++ fmt.data = ['.'] := by
    have hdd := congrArg String.data he
    rw [String.data_append, String.data_append] at hdd
    exact hdd
  have hlen := congrArg List.length hd
  simp only [List.length_append, List.length_cons, List.length_nil] at hlen
  exact hne (String.ext (List.length_eq_zero.mp (by omega)))

/-- A stem-plus-extension component is slash-free when the format is. -/
theorem stemExt_no_slash (o fmt : String) (hns : '/' ∉ fmt.data) :
    '/' ∉ (pathStem o ++ "." ++ fmt).data := by
  rw [String.data_append, String.data_append]
  intro hm
  rcases List.mem_append.mp hm with hm | hm
  · rcases List.mem_append.mp hm with hm | hm
    · exact pathStem_no_slash o hm
    · exact absurd hm (by decide)
  · exact hns hm

/-- Joining a plain component onto the downloads directory appends it. -/
theorem pathJoin_downloads (g : String) (hgne : g ≠ "") (hgdot : g ≠ ".")
    (hgns : '/' ∉ g.data) :
    pathJoin "/app/downloads" g = "/app/downloads/" ++ g := by
  unfold pathJoin
  rw [if_neg (by push_neg; exact ⟨hgne, hgdot⟩), if_neg ?_]
  · rw [show ("/app/downloads" ++ "/" : String) = "/app/downloads/" from rfl]
  · intro hh
    apply hgns
    cases hg : g.data with
    | nil => rw [hg] at hh; cases hh
    | cons a l =>
      rw [hg] at hh
      simp only [List.head?] at hh
      cases hh
      exact List.mem_cons_self _ _

/-- Embedding of `export.SUPPORTED_FORMATS` (insertion order preserved). -/
def SUPPORTED_FORMATS : List (String × String) :=
  [("png", "PNG image"), ("gif", "GIF animation"), ("jpg", "JPEG image"),
   ("jpeg", "JPEG image"), ("bmp", "Bitmap image"), ("tga", "Targa image"),
   ("webp", "WebP image")]

/-- Embedding of `export.export_sprite`: validate the input file, normalize
and check the format, prepare the output path, and run the batch export. -/
def export_sprite (ase filename output_filename format : String) (fs : FS)
    (outcome : SubprocessOutcome) : String × ExecTrace :=
  if filename ∉ fs.files then ("File not found: " ++ filename, emptyTrace)
  else
    let format := pyStrip (pyLower format)
    if SUPPORTED_FORMATS.lookup format = none then
      ("Error: Unsupported format \x27" ++ format ++
        "\x27. Supported formats: png, gif, jpg, jpeg, bmp, tga, webp", emptyTrace)
    else
      let output_path := prepare_output_path output_filename format
      let args := ["--batch", filename, "--save-as", output_path]
      match run_command ase args 30 outcome with
      | .ok (true, _) =>
        ("Sprite exported successfully from " ++ filename ++ " to Downloads/" ++
          pathName output_path ++ " (" ++ ((SUPPORTED_FORMATS.lookup format).getD "") ++ ")",
         ⟨[], [args], []⟩)
      | .ok (false, out) => ("Failed to export sprite: " ++ out, ⟨[], [args], []⟩)
      | .error e => ("Error executing Aseprite command: " ++ e.message, ⟨[], [args], []⟩)

/-- Embedding of `export.export_animation`: validate the input file, restrict
the format to animations, bound the scale, then run the batch export with an
optional `--scale` pair. -/
def export_animation (ase filename output_filename format : String) (scale : Int)
    (fs : FS) (outcome : SubprocessOutcome) : String × ExecTrace :=
  if filename ∉ fs.files then ("File not found: " ++ filename, emptyTrace)
  else
    let format := pyStrip (pyLower format)
    if format ≠ "gif" ∧ format ≠ "webp" then
      ("Error: Animation export only supports \x27gif\x27 and \x27webp\x27 formats",
       emptyTrace)
    else if scale < 1 ∨ scale > 10 then
      ("Error: Scale must be between 1 and 10", emptyTrace)
    else
      let output_path := prepare_output_path output_filename format
      let args := ["--batch", filename] ++
        (if scale > 1 then ["--scale", toString scale] else []) ++
        ["--save-as", output_path]
      match run_command ase args 30 outcome with
      | .ok (true, _) =>
        ("Animation exported successfully from " ++ filename ++ " to Downloads/" ++
          pathName output_path ++ " (scale: " ++ toString scale ++ "x)", ⟨[], [args], []⟩)
      | .ok (false, out) => ("Failed to export animation: " ++ out, ⟨[], [args], []⟩)
      | .error e => ("Error executing Aseprite command: " ++ e.message, ⟨[], [args], []⟩)

/-- A format accepted by the supported-formats table is one of its seven keys. -/
theorem supported_format_cases (f : String) (h : SUPPORTED_FORMATS.lookup f ≠ none) :
    f = "png" ∨ f = "gif" ∨ f = "jpg" ∨ f = "jpeg" ∨ f = "bmp" ∨ f = "tga" ∨ f = "webp" := by
  by_contra hc
  push_neg at hc
  obtain ⟨h1, h2, h3, h4, h5, h6, h7⟩ := hc
  apply h
  simp [SUPPORTED_FORMATS, List.lookup,
    beq_eq_false_iff_ne.mpr h1, beq_eq_false_iff_ne.mpr h2,
    beq_eq_false_iff_ne.mpr h3, beq_eq_false_iff_ne.mpr h4,
    beq_eq_false_iff_ne.mpr h5, beq_eq_false_iff_ne.mpr h6,
    beq_eq_false_iff_ne.mpr h7]

/-- Claim C9: when the requested output name lacks the (case-insensitive)
extension of the chosen supported format, the export invocation's save-path
argument is the downloads-directory path of the stem with the extension
appended. -/
theorem export_sprite_appends_extension (ase fn o fmtRaw : String) (fs : FS)
    (oc : SubprocessOutcome)
    (hfile : fn ∈ fs.files)
    (hfmt : SUPPORTED_FORMATS.lookup (pyStrip (pyLower fmtRaw)) ≠ none)
    (hext : pyEndsWith (pyLower (pathName o)) ("." ++ pyStrip (pyLower fmtRaw)) = false) :
    (export_sprite ase fn o fmtRaw fs oc).2.runCalls =
      [["--batch", fn, "--save-as",
        ("/app/downloads/" ++ pathStem o) ++ "." ++ pyStrip (pyLower fmtRaw)]] := by
  set f := pyStrip (pyLower fmtRaw) with hf
  have hcases := supported_format_cases f hfmt
  have hfne : f ≠ "" := by rcases hcases with h|h|h|h|h|h|h <;> rw [h] <;> decide
  have hfns : '/' ∉ f.data := by rcases hcases with h|h|h|h|h|h|h <;> rw [h] <;> decide
  have hprep : prepare_output_path o f = "/app/downloads/" ++ (pathStem o ++ "." ++ f) := by
    unfold prepare_output_path get_downloads_dir
    show pathJoin "/app/downloads"
        (if pyEndsWith (pyLower (pathName o)) ("." ++ f) = true then pathName o
         else pathStem o ++ "." ++ f) = _
    rw [if_neg (by rw [hext]; exact Bool.false_ne_true)]
    exact pathJoin_downloads _ (stemExt_ne_empty o f) (stemExt_ne_dot o f hfne)
      (stemExt_no_slash o f hfns)
  have hassoc : "/app/downloads/" ++ (pathStem o ++ "." ++ f) =
      ("/app/downloads/" ++ pathStem o) ++ "." ++ f := by
    rw [String.append_assoc ("/app/downloads/" ++ pathStem o) "." f,
      String.append_assoc "/app/downloads/" (pathStem o), String.append_assoc (pathStem o)]
  unfold export_sprite
  rw [if_neg (not_not_intro hfile), if_neg hfmt, ← hf, hprep, hassoc]
  cases oc with
  | exited rc out err =>
    by_cases h0 : rc = 0
    · simp only [run_command, if_pos h0]
    · simp only [run_command, if_neg h0]
  | timedOut => rfl
  | execNotFound => rfl
  | unexpected m => rfl

/-- Concrete instance of claim C9: exporting to `"result"` as png passes a
save path containing `result.png`. -/
theorem export_sprite_appends_extension_witness :
    (export_sprite "aseprite" "file.ase" "result" "png" ⟨["file.ase"]⟩
        (.exited 0 "" "")).2.runCalls =
      [["--batch", "file.ase", "--save-as", "/app/downloads/result.png"]] := by
  have h := export_sprite_appends_extension "aseprite" "file.ase" "result" "png"
    ⟨["file.ase"]⟩ (.exited 0 "" "") (by decide) (by decide) (by decide)
  exact h.trans (by decide)

/-- Shared opening of the drawing scripts: active-sprite guard and the
transaction header with its cel-creation fallback. -/
def luaCelPrelude (txn : String) : String :=
  "\n    local spr = app.activeSprite\n    if not spr then\n        return \"Error: No active sprite\"\n    end\n\n    app.transaction(\"" ++ txn ++
  "\", function()\n        local cel = app.activeCel\n        if not cel then\n            app.activeLayer = spr.layers[1]\n            app.activeFrame = spr.frames[1]\n            cel = spr:newCel(app.activeLayer, app.activeFrame)\n            if not cel then\n                return \"Error: Could not create cel\"\n            end\n        end\n\n"

/-- Body of the Lua script interpolated by `canvas.create_canvas`. -/
def createCanvasScript (width height : Int) (filename : String) : String :=
  "\n    local spr = Sprite(" ++ toString width ++ ", " ++ toString height ++
  ")\n    if spr then\n        spr:saveAs(\"" ++ filename ++
  "\")\n        return \"Canvas created successfully: " ++ filename ++
  "\"\n    else\n        return \"Failed to create sprite\"\n    end\n    "

/-- Body of the Lua script interpolated by `drawing.draw_line`. -/
def drawLineScript (r g b : Nat) (thickness x1 y1 x2 y2 : Int) : String :=
  luaCelPrelude "Draw Line" ++
  "        local color = Color(" ++ toString r ++ ", " ++ toString g ++ ", " ++ toString b ++
  ", 255)\n        local brush = Brush()\n        brush.size = " ++ toString thickness ++
  "\n\n        app.useTool(\x7b\n            tool=\"line\",\n            color=color,\n            brush=brush,\n            points=\x7bPoint(" ++
  toString x1 ++ ", " ++ toString y1 ++ "), Point(" ++ toString x2 ++ ", " ++ toString y2 ++
  ")\x7d\n        \x7d)\n    end)\n\n    spr:saveAs(spr.filename)\n    return \"Line drawn successfully\"\n    "

/-- Body of the Lua script interpolated by `drawing.draw_rectangle`. -/
def drawRectangleScript (r g b : Nat) (tool : String) (x y width height : Int) : String :=
  luaCelPrelude "Draw Rectangle" ++
  "        local color = Color(" ++ toString r ++ ", " ++ toString g ++ ", " ++ toString b ++
  ", 255)\n        app.useTool(\x7b\n            tool=\"" ++ tool ++
  "\",\n            color=color,\n            points=\x7bPoint(" ++
  toString x ++ ", " ++ toString y ++ "), Point(" ++ toString (x + width) ++ ", " ++
  toString (y + height) ++
  ")\x7d\n        \x7d)\n    end)\n\n    spr:saveAs(spr.filename)\n    return \"Rectangle drawn successfully\"\n    "

/-- Body of the Lua script interpolated by `drawing.draw_circle`. -/
def drawCircleScript (r g b : Nat) (tool : String) (cx cy radius : Int) : String :=
  luaCelPrelude "Draw Circle" ++
  "        local color = Color(" ++ toString r ++ ", " ++ toString g ++ ", " ++ toString b ++
  ", 255)\n        app.useTool(\x7b\n            tool=\"" ++ tool ++
  "\",\n            color=color,\n            points=\x7b\n                Point(" ++
  toString (cx - radius) ++ ", " ++ toString (cy - radius) ++
  "),\n                Point(" ++ toString (cx + radius) ++ ", " ++ toString (cy + radius) ++
  ")\n            \x7d\n        \x7d)\n    end)\n\n    spr:saveAs(spr.filename)\n    return \"Circle drawn successfully\"\n    "

/-- Embedding of `canvas.create_canvas`: bounds checks, extension fixup, then
one script execution. -/
def create_canvas (ase : String) (width height : Int) (filename : String)
    (fs : FS) (env : ExecEnv) : String × FS × ExecTrace :=
  if width ≤ 0 ∨ height ≤ 0 then
    ("Error: Width and height must be positive integers", fs, emptyTrace)
  else if width > 8192 ∨ height > 8192 then
    ("Error: Canvas dimensions too large (max 8192x8192)", fs, emptyTrace)
  else
    let filename :=
      if pyLower (pathSuffix filename) ∈ [".aseprite", ".ase"] then filename
      else pathStem filename ++ ".aseprite"
    match execute_lua_script ase (createCanvasScript width height filename) none 30 fs env with
    | (.ok (true, _), fs2, tr) =>
      ("Canvas created successfully: " ++ filename ++ " (" ++ toString width ++ "x" ++
        toString height ++ ")", fs2, tr)
    | (.ok (false, out), fs2, tr) => ("Failed to create canvas: " ++ out, fs2, tr)
    | (.error e, fs2, tr) => ("Error executing Aseprite command: " ++ e.message, fs2, tr)

/-- Embedding of `drawing.draw_line`: thickness bound, color validation, file
check, then one script execution.  The `getD` default is unreachable: a
validated color always parses. -/
def draw_line (ase filename : String) (x1 y1 x2 y2 : Int) (color : String)
    (thickness : Int) (fs : FS) (env : ExecEnv) : String × FS × ExecTrace :=
  if thickness < 1 ∨ thickness > 100 then
    ("Error: Thickness must be between 1 and 100", fs, emptyTrace)
  else
    match validate_hex_color color with
    | (false, _) => ("Error: Invalid color format \x27" ++ color ++ "\x27", fs, emptyTrace)
    | (true, normalized) =>
      if filename ∉ fs.files then ("File not found: " ++ filename, fs, emptyTrace)
      else
        let rgb := (hex_to_rgb normalized).getD (0, 0, 0)
        match execute_lua_script ase
            (drawLineScript rgb.1 rgb.2.1 rgb.2.2 thickness x1 y1 x2 y2)
            (some filename) 30 fs env with
        | (.ok (true, _), fs2, tr) =>
          ("Line drawn successfully from (" ++ toString x1 ++ "," ++ toString y1 ++
            ") to (" ++ toString x2 ++ "," ++ toString y2 ++ ") in " ++ filename, fs2, tr)
        | (.ok (false, out), fs2, tr) => ("Failed to draw line: " ++ out, fs2, tr)
        | (.error e, fs2, tr) => ("Error executing Aseprite command: " ++ e.message, fs2, tr)

/-- Embedding of `drawing.draw_rectangle`. -/
def draw_rectangle (ase filename : String) (x y width height : Int) (color : String)
    (fill : Bool) (fs : FS) (env : ExecEnv) : String × FS × ExecTrace :=
  if width ≤ 0 ∨ height ≤ 0 then
    ("Error: Width and height must be positive", fs, emptyTrace)
  else
    match validate_hex_color color with
    | (false, _) => ("Error: Invalid color format \x27" ++ color ++ "\x27", fs, emptyTrace)
    | (true, normalized) =>
      if filename ∉ fs.files then ("File not found: " ++ filename, fs, emptyTrace)
      else
        let rgb := (hex_to_rgb normalized).getD (0, 0, 0)
        let tool := if fill then "filled_rectangle" else "rectangle"
        match execute_lua_script ase
            (drawRectangleScript rgb.1 rgb.2.1 rgb.2.2 tool x y width height)
            (some filename) 30 fs env with
        | (.ok (true, _), fs2, tr) =>
          ((if fill then "Filled " else "") ++ "Rectangle drawn successfully at (" ++
            toString x ++ "," ++ toString y ++ ") size " ++ toString width ++ "x" ++
            toString height ++ " in " ++ filename, fs2, tr)
        | (.ok (false, out), fs2, tr) => ("Failed to draw rectangle: " ++ out, fs2, tr)
        | (.error e, fs2, tr) => ("Error executing Aseprite command: " ++ e.message, fs2, tr)

/-- Embedding of `drawing.draw_circle`. -/
def draw_circle (ase filename : String) (center_x center_y radius : Int) (color : String)
    (fill : Bool) (fs : FS) (env : ExecEnv) : String × FS × ExecTrace :=
  if radius ≤ 0 then
    ("Error: Radius must be positive", fs, emptyTrace)
  else
    match validate_hex_color color with
    | (false, _) => ("Error: Invalid color format \x27" ++ color ++ "\x27", fs, emptyTrace)
    | (true, normalized) =>
      if filename ∉ fs.files then ("File not found: " ++ filename, fs, emptyTrace)
      else
        let rgb := (hex_to_rgb normalized).getD (0, 0, 0)
        let tool := if fill then "filled_ellipse" else "ellipse"
        match execute_lua_script ase
            (drawCircleScript rgb.1 rgb.2.1 rgb.2.2 tool center_x center_y radius)
            (some filename) 30 fs env with
        | (.ok (true, _), fs2, tr) =>
          ((if fill then "Filled " else "") ++ "Circle drawn successfully at (" ++
            toString center_x ++ "," ++ toString center_y ++ ") radius " ++
            toString radius ++ " in " ++ filename, fs2, tr)
        | (.ok (false, out), fs2, tr) => ("Failed to draw circle: " ++ out, fs2, tr)
        | (.error e, fs2, tr) => ("Error executing Aseprite command: " ++ e.message, fs2, tr)

/-- Claim C7: a non-positive width/height (create_canvas, draw_rectangle),
non-positive radius (draw_circle), thickness outside [1,100] (draw_line), or
scale outside [1,10] (export_animation) makes the tool return a failure string
with an empty trace — no temp file written and zero subprocess calls. -/
theorem validation_short_circuits_before_subprocess :
    (∀ ase (w h : Int) fn fs env, w ≤ 0 ∨ h ≤ 0 →
      create_canvas ase w h fn fs env =
        ("Error: Width and height must be positive integers", fs, emptyTrace)) ∧
    (∀ ase fn (x y w h : Int) c fill fs env, w ≤ 0 ∨ h ≤ 0 →
      draw_rectangle ase fn x y w h c fill fs env =
        ("Error: Width and height must be positive", fs, emptyTrace)) ∧
    (∀ ase fn (cx cy r : Int) c fill fs env, r ≤ 0 →
      draw_circle ase fn cx cy r c fill fs env =
        ("Error: Radius must be positive", fs, emptyTrace)) ∧
    (∀ ase fn (x1 y1 x2 y2 : Int) c (t : Int) fs env, t < 1 ∨ t > 100 →
      draw_line ase fn x1 y1 x2 y2 c t fs env =
        ("Error: Thickness must be between 1 and 100", fs, emptyTrace)) ∧
    (∀ ase fn o fmt (sc : Int) fs oc, sc < 1 ∨ sc > 10 →
      (export_animation ase fn o fmt sc fs oc).2 = emptyTrace ∧
        ((∃ rest, (export_animation ase fn o fmt sc fs oc).1 = "File not found: " ++ rest) ∨
         (export_animation ase fn o fmt sc fs oc).1 =
           "Error: Animation export only supports \x27gif\x27 and \x27webp\x27 formats" ∨
         (export_animation ase fn o fmt sc fs oc).1 =
           "Error: Scale must be between 1 and 10")) := by
  refine ⟨?_, ?_, ?_, ?_, ?_⟩
  · intro ase w h fn fs env hwh
    unfold create_canvas
    rw [if_pos hwh]
  · intro ase fn x y w h c fill fs env hwh
    unfold draw_rectangle
    rw [if_pos hwh]
  · intro ase fn cx cy r c fill fs env hr
    unfold draw_circle
    rw [if_pos hr]
  · intro ase fn x1 y1 x2 y2 c t fs env ht
    unfold draw_line
    rw [if_pos ht]
  · intro ase fn o fmt sc fs oc hsc
    unfold export_animation
    by_cases hfile : fn ∈ fs.files
    · rw [if_neg (not_not_intro hfile)]
      by_cases hfmt : pyStrip (pyLower fmt) ≠ "gif" ∧ pyStrip (pyLower fmt) ≠ "webp"
      · rw [if_pos hfmt]
        exact ⟨rfl, Or.inr (Or.inl rfl)⟩
      · rw [if_neg hfmt, if_pos hsc]
        exact ⟨rfl, Or.inr (Or.inr rfl)⟩
    · rw [if_pos hfile]
      exact ⟨rfl, Or.inl ⟨fn, rfl⟩⟩

/-- Concrete instances of claim C7: one rejected input per tool, each with an
empty trace. -/
theorem validation_short_circuits_before_subprocess_witness :
    create_canvas "aseprite" 0 5 "c.aseprite" ⟨[]⟩ ⟨"/tmp/tmpe.lua", .exited 0 "" "", false⟩ =
      ("Error: Width and height must be positive integers", ⟨[]⟩, emptyTrace) ∧
    draw_rectangle "aseprite" "f.ase" 1 1 0 4 "#FF0000" false ⟨["f.ase"]⟩
        ⟨"/tmp/tmpe.lua", .exited 0 "" "", false⟩ =
      ("Error: Width and height must be positive", ⟨["f.ase"]⟩, emptyTrace) ∧
    draw_circle "aseprite" "f.ase" 3 3 0 "#FF0000" false ⟨["f.ase"]⟩
        ⟨"/tmp/tmpe.lua", .exited 0 "" "", false⟩ =
      ("Error: Radius must be positive", ⟨["f.ase"]⟩, emptyTrace) ∧
    draw_line "aseprite" "f.ase" 0 0 1 1 "#FF0000" 101 ⟨["f.ase"]⟩
        ⟨"/tmp/tmpe.lua", .exited 0 "" "", false⟩ =
      ("Error: Thickness must be between 1 and 100", ⟨["f.ase"]⟩, emptyTrace) ∧
    (export_animation "aseprite" "f.ase" "out" "gif" 0 ⟨["f.ase"]⟩ (.exited 0 "" "")).2 =
      emptyTrace := by
  obtain ⟨hc, hr, hk, hl, he⟩ := validation_short_circuits_before_subprocess
  exact ⟨hc "aseprite" 0 5 "c.aseprite" ⟨[]⟩ _ (by decide),
    hr "aseprite" "f.ase" 1 1 0 4 "#FF0000" false ⟨["f.ase"]⟩ _ (by decide),
    hk "aseprite" "f.ase" 3 3 0 "#FF0000" false ⟨["f.ase"]⟩ _ (by decide),
    hl "aseprite" "f.ase" 0 0 1 1 "#FF0000" 101 ⟨["f.ase"]⟩ _ (by decide),
    (he "aseprite" "f.ase" "out" "gif" 0 ⟨["f.ase"]⟩ (.exited 0 "" "") (by decide)).1⟩
